import Mathlib

/-!
Verification of the Fanatical RSS bundle aggregation pipeline
(`pkg/feed.go`, `pkg/model.go`).

Shallow embedding conventions:
* Go `float64` prices are modelled as exact rationals (`ℚ`).
* Go `time.Time` values are modelled by their unix-seconds integer
  (`Int`); every `time.Now()` call within one pipeline run is modelled
  by the same explicit instant `now : Int`.
* Go `map[string]float64` / `map[string]string` values are modelled as
  association lists; the code only ever looks maps up by key.
* `time.Parse(time.RFC3339, s)` (standard-library RFC3339 parsing) is
  modelled by a parameter `parse : String → Option Int` returning the
  unix seconds on success and `none` on error; a Go zero `time.Time`
  has unix seconds `goZeroUnix = -62135596800`.
* Go string operations (`strings.ToLower`, `strings.Contains`,
  `strings.Join`, `strings.Title`, `fmt.Sprintf("%s-%d", …)`) are given
  executable definitions over `List Char` below.  `strings.ToLower`
  only differs from the model on non-ASCII cased letters, which never
  occur in the category lexicons.
-/

/- The Batteries rational operations are `@[irreducible]`, which
blocks `decide`-style evaluation of concrete pipeline runs; restore
the default reducibility so witnesses can be checked by evaluation. -/
set_option allowUnsafeReducibility true in
attribute [semireducible] Rat.add Rat.sub Rat.mul Rat.inv Rat.ofScientific

namespace Gofanatical

/-! ### String helpers (models of Go `strings` operations) -/

/-- Model of Go `strings.ToLower` (ASCII case folding; the lexicons the
pipeline matches against are all ASCII). -/
def lowerStr (s : String) : String :=
  String.mk (s.data.map Char.toLower)

/-- Is `p` a prefix of `s` (character lists)? -/
def prefixCheck : List Char → List Char → Bool
  | [], _ => true
  | _ :: _, [] => false
  | a :: as, b :: bs => a == b && prefixCheck as bs

/-- Does `pat` occur as a contiguous run inside `s`? -/
def containsAux (pat : List Char) : List Char → Bool
  | [] => prefixCheck pat []
  | c :: rest => prefixCheck pat (c :: rest) || containsAux pat rest

/-- Model of Go `strings.Contains s pat`. -/
def strContains (s pat : String) : Bool :=
  containsAux pat.data s.data

/-- Model of Go `strings.Join parts sep`. -/
def joinSep (sep : String) : List String → String
  | [] => ""
  | [x] => x
  | x :: y :: xs => x ++ sep ++ joinSep sep (y :: xs)

/-- One step of `strings.Title`: capitalise a character when the
previous one was a separator (Go treats letters, digits and `_` as
non-separators). -/
def titleAux : Bool → List Char → List Char
  | _, [] => []
  | prevSep, c :: cs =>
    (if prevSep then c.toUpper else c) :: titleAux (!(c.isAlphanum || c == '_')) cs

/-- Model of Go `strings.Title` (used for the placeholder feed title). -/
def goTitleCase (s : String) : String :=
  String.mk (titleAux true s.data)

/-! ### Decimal rendering (model of `fmt.Sprintf("%d", …)`) -/

/-- Little-endian decimal digits of a natural number, with explicit
fuel (`natDigitsRev` always supplies enough). -/
def natDigitsRevFuel : Nat → Nat → List Nat
  | 0, _ => []
  | fuel + 1, n => if n < 10 then [n] else n % 10 :: natDigitsRevFuel fuel (n / 10)

/-- Little-endian decimal digits of `n` (`[0]` for `0`). -/
def natDigitsRev (n : Nat) : List Nat :=
  natDigitsRevFuel (n + 1) n

/-- The character for a decimal digit. -/
def digitToChar : Nat → Char
  | 0 => '0' | 1 => '1' | 2 => '2' | 3 => '3' | 4 => '4'
  | 5 => '5' | 6 => '6' | 7 => '7' | 8 => '8' | 9 => '9'
  | _ => '*'

/-- Decimal rendering of a natural number. -/
def natToStr (n : Nat) : String :=
  String.mk ((natDigitsRev n).reverse.map digitToChar)

/-- Decimal rendering of an integer, as produced by Go's `%d` verb. -/
def intToStr : Int → String
  | Int.ofNat n => natToStr n
  | Int.negSucc n => String.mk ('-' :: (natToStr (n + 1)).data)

/-- Numeric value of a little-endian digit list (used to show the
digit decomposition is injective). -/
def fromDigitsRev : List Nat → Nat
  | [] => 0
  | d :: ds => d + 10 * fromDigitsRev ds

/-! ### Rational helpers -/

/-- Go's `int(x)` conversion on a `float64`: truncation toward zero. -/
def ratTrunc (q : ℚ) : Int :=
  if 0 ≤ q then q.floor else -((-q).floor)

/-- Go's `%.0f` formatting rounds half to even. -/
def roundHalfEven (q : ℚ) : Int :=
  let fl := q.floor
  let frac := q - fl
  if frac < 1/2 then fl
  else if 1/2 < frac then fl + 1
  else if fl % 2 == 0 then fl else fl + 1

/-- Go `fmt.Sprintf("%.0f", q)`. -/
def goFmtDot0 (q : ℚ) : String :=
  intToStr (roundHalfEven q)

/-- Unix seconds of the Go zero `time.Time` (what `t.Unix()` returns
after a failed `time.Parse` whose error is ignored). -/
def goZeroUnix : Int := -62135596800

/-! ### Map lookup (Go `m[k]` with `, exists`) -/

/-- Lookup in a `map[string]float64` modelled as an association list. -/
def mapLookup (m : List (String × ℚ)) (k : String) : Option ℚ :=
  (m.find? (fun p => p.1 == k)).map (·.2)

/-- Lookup in a `map[string]string` modelled as an association list. -/
def mapLookupStr (m : List (String × String)) (k : String) : Option String :=
  (m.find? (fun p => p.1 == k)).map (·.2)

/-! ### Data model (`pkg/model.go`, `pkg/feed.go` type declarations).
Defaults are the Go zero values of the field types. -/

/-- Go `Price` from `pkg/model.go`. -/
structure Price where
  currency : String := ""
  amount : ℚ := 0
  original : ℚ := 0
  discount : Int := 0
  deriving DecidableEq

/-- Go `Item` from `pkg/model.go`. -/
structure Item where
  id : String := ""
  title : String := ""
  description : String := ""
  image : String := ""
  type : String := ""
  value : Price := {}
  deriving DecidableEq

/-- Go `FanaticalBundle` from `pkg/model.go`; `StartDate`/`EndDate` are
kept as unix seconds. -/
structure FanaticalBundle where
  id : String := ""
  title : String := ""
  slug : String := ""
  description : String := ""
  image : String := ""
  url : String := ""
  price : Price := {}
  startUnix : Int := 0
  endUnix : Int := 0
  type : String := ""
  category : String := ""
  items : List Item := []
  isActive : Bool := false
  deriving DecidableEq

/-- Go `BundleGame` from `pkg/feed.go`. -/
structure BundleGame where
  name : String := ""
  slug : String := ""
  cover : String := ""
  type : String := ""
  drm : List String := []
  operatingSystems : List String := []
  price : List (String × ℚ) := []
  deriving DecidableEq

/-- Go `FanaticalAPIBundle` from `pkg/feed.go`. -/
structure FanaticalAPIBundle where
  productId : String := ""
  sku : String := ""
  name : String := ""
  slug : String := ""
  type : String := ""
  displayType : String := ""
  cover : String := ""
  tiered : Bool := false
  discountPercent : Int := 0
  onSale : Bool := false
  bestEver : Bool := false
  flashSale : Bool := false
  starDeal : Bool := false
  price : List (String × ℚ) := []
  fullPrice : List (String × ℚ) := []
  drm : List String := []
  validFrom : Int := 0
  validUntil : Int := 0
  position : Int := 0
  releaseDate : Int := 0
  giveaway : Bool := false
  gameTotal : Int := 0
  dlcTotal : Int := 0
  bundleCovers : List BundleGame := []
  pnmSaving : Int := 0
  operatingSystems : List String := []
  features : List String := []
  categories : List String := []
  sdescs : List (String × String) := []
  screenshots : List String := []
  deriving DecidableEq

/-- Go `PickAndMixTier` from `pkg/feed.go`. -/
structure PickAndMixTier where
  quantity : Int := 0
  price : List (String × ℚ) := []
  deriving DecidableEq

/-- Go `PickAndMixProduct` from `pkg/feed.go`. -/
structure PickAndMixProduct where
  id : String := ""
  name : String := ""
  slug : String := ""
  cover : String := ""
  deriving DecidableEq

/-- Go `PickAndMixBundle` from `pkg/feed.go`; the validity window stays in
its raw string encoding (parsed later). -/
structure PickAndMixBundle where
  id : String := ""
  name : String := ""
  slug : String := ""
  coverImage : String := ""
  sku : String := ""
  type : String := ""
  validFrom : String := ""
  validUntil : String := ""
  tiers : List PickAndMixTier := []
  products : List PickAndMixProduct := []
  deriving DecidableEq

/-- Go `FanaticalAllResponse` from `pkg/feed.go` (the fields the pipeline
consumes). -/
structure FanaticalAllResponse where
  starDeal : Option FanaticalAPIBundle := none
  pickAndMix : List PickAndMixBundle := []
  deriving DecidableEq

/-- Go `ProductVisibility` from `pkg/feed.go`. -/
structure ProductVisibility where
  validFrom : String := ""
  validUntil : String := ""
  deriving DecidableEq

/-- Go `PromotionProduct` from `pkg/feed.go`. -/
structure PromotionProduct where
  id : String := ""
  name : String := ""
  slug : String := ""
  type : String := ""
  cover : String := ""
  price : List (String × ℚ) := []
  mystery : Bool := false
  visible : ProductVisibility := {}
  isVisible : Bool := false
  deriving DecidableEq

/-- Go `FreeProduct` from `pkg/feed.go` (`Public` is `isPublic` here). -/
structure FreeProduct where
  id : String := ""
  partnerBrand : String := ""
  isPublic : Bool := false
  validFrom : String := ""
  validUntil : String := ""
  minSpend : List (String × ℚ) := []
  maxSpend : List (String × ℚ) := []
  book : Bool := false
  bundle : Bool := false
  game : Bool := false
  products : List PromotionProduct := []
  deriving DecidableEq

/-- Go `Delivery` from `pkg/feed.go`. -/
structure Delivery where
  id : String := ""
  name : String := ""
  description : String := ""
  percent : Int := 0
  minSpend : List (String × ℚ) := []
  validFrom : String := ""
  validUntil : String := ""
  isPublic : Bool := false
  starDeal : Bool := false
  deriving DecidableEq

/-- Go `Voucher` from `pkg/feed.go` (`Public` is `isPublic` here). -/
structure Voucher where
  id : String := ""
  code : String := ""
  title : String := ""
  description : String := ""
  percent : Int := 0
  minSpend : List (String × ℚ) := []
  maxSpend : List (String × ℚ) := []
  validFrom : String := ""
  validUntil : String := ""
  isPublic : Bool := false
  starDeal : Bool := false
  game : Bool := false
  bundle : Bool := false
  book : Bool := false
  fullPriceOnly : Bool := false
  deriving DecidableEq

/-- Go `PromotionsResponse` from `pkg/feed.go` (`SaleRecords`, a list of
opaque JSON values the pipeline never reads, is omitted). -/
structure PromotionsResponse where
  freeProducts : List FreeProduct := []
  deliveries : List Delivery := []
  vouchers : List Voucher := []
  deriving DecidableEq

/-! ### Pipeline functions (`pkg/feed.go`) -/

/-- Go `getPrice` (feed.go:948-962): prefer `preferredCurrency` when its
amount is positive, else fall back through the fixed currency list. -/
def fallbackPrice (priceMap : List (String × ℚ)) : List String → ℚ
  | [] => 0
  | c :: rest =>
    match mapLookup priceMap c with
    | some p => if p > 0 then p else fallbackPrice priceMap rest
    | none => fallbackPrice priceMap rest

/-- Go `getPrice` (feed.go:948-962). -/
def getPrice (priceMap : List (String × ℚ)) (preferredCurrency : String) : ℚ :=
  match mapLookup priceMap preferredCurrency with
  | some price =>
    if price > 0 then price else fallbackPrice priceMap ["EUR", "GBP", "CAD", "AUD"]
  | none => fallbackPrice priceMap ["EUR", "GBP", "CAD", "AUD"]

/-- Go `isExpired` (feed.go:1025-1027): `time.Now().Unix() > validUntil`. -/
def isExpired (now validUntil : Int) : Bool :=
  decide (validUntil < now)

/-- Go `determineBundleCategory` (feed.go:964-1023). -/
def determineBundleCategory (apiBundle : FanaticalAPIBundle) : String :=
  let name := lowerStr apiBundle.name
  let bundleType := lowerStr apiBundle.type
  let displayType := lowerStr apiBundle.displayType
  if displayType == "book-bundle" then "books"
  else if displayType == "elearning-bundle" then "software"
  else if displayType == "software-bundle" then "software"
  else if bundleType == "book-bundle" then "books"
  else if bundleType == "elearning-bundle" then "software"
  else if bundleType == "software-bundle" then "software"
  else if bundleType == "bundle" then
    if strContains name "software" || strContains name "excel" then "software"
    else if strContains name "book" || strContains name "certification" ||
            strContains name "learning" then "books"
    else "games"
  else
    if strContains name "book" || strContains name "certification" ||
       strContains name "learning" || strContains name "training" ||
       strContains name "course" then "books"
    else if strContains name "software" || strContains name "excel" ||
            strContains name "programming" || strContains name "development" then "software"
    else "games"

/-- Discount resolution inside `convertAPIBundlesToInternal`
(feed.go:663-672): recompute a zero explicit discount from the prices
(Go `int(…)` truncation), then let a larger `PNMSaving` win. -/
def computeDiscount (apiDiscount : Int) (price originalPrice : ℚ) (pnmSaving : Int) : Int :=
  let discount := apiDiscount
  let discount :=
    if discount == 0 && decide (originalPrice > price) && decide (originalPrice > 0) then
      ratTrunc (((originalPrice - price) / originalPrice) * 100)
    else discount
  if pnmSaving > discount then pnmSaving else discount

/-- Longest character-aligned prefix of `cs` whose UTF-8 size is at
most `limit` bytes. -/
def takeBytesAux (limit : Nat) : List Char → List Char
  | [] => []
  | c :: cs => if c.utf8Size ≤ limit then c :: takeBytesAux (limit - c.utf8Size) cs else []

/-- Go `s[:100] + "..."` guarded by `len(s) > 100` (feed.go:794-796).
Go slices raw bytes and may split a code point; the model takes the
longest char-aligned prefix of at most 100 bytes (identical on the
ASCII/char-aligned inputs the pipeline sees). -/
def goTruncate (limit : Nat) (s : String) : String :=
  if s.utf8ByteSize > limit then String.mk (takeBytesAux limit s.data) ++ "..." else s

/-- Go `createEnhancedBundleDescription` (feed.go:737-806). -/
def createEnhancedBundleDescription (apiBundle : FanaticalAPIBundle) : String :=
  let parts : List String := []
  let parts := parts ++
    (if apiBundle.type == "pick-and-mix" then ["🎯 Build your own bundle"]
     else if apiBundle.type == "bundle" then ["📦 Bundle"]
     else if apiBundle.type == "game" then
       (if apiBundle.starDeal then ["⭐ Star Deal"] else [])
     else if apiBundle.type == "book-bundle" then ["📚 Book Bundle"]
     else if apiBundle.type == "elearning-bundle" then ["🎓 Learning Bundle"]
     else if apiBundle.type == "software-bundle" then ["💻 Software Bundle"]
     else [])
  let parts := parts ++
    (if apiBundle.gameTotal > 0 then [intToStr apiBundle.gameTotal ++ " items"] else [])
  let parts := parts ++
    (if apiBundle.dlcTotal > 0 then [intToStr apiBundle.dlcTotal ++ " DLC"] else [])
  let parts := parts ++ (if apiBundle.bestEver then ["🏆 Best price ever!"] else [])
  let parts := parts ++ (if apiBundle.flashSale then ["⚡ Flash sale!"] else [])
  let parts := parts ++ (if apiBundle.starDeal then ["⭐ Star Deal"] else [])
  let parts := parts ++ (if apiBundle.giveaway then ["🎁 FREE"] else [])
  let parts := parts ++
    (if apiBundle.drm.length > 0 then ["DRM: " ++ joinSep ", " apiBundle.drm] else [])
  let parts := parts ++
    (if apiBundle.operatingSystems.length > 0 then
       ["OS: " ++ joinSep ", " apiBundle.operatingSystems] else [])
  let parts := parts ++
    (if apiBundle.sdescs.length > 0 then
       match mapLookupStr apiBundle.sdescs "de" with
       | some germanDesc => if germanDesc != "" then [goTruncate 100 germanDesc] else []
       | none => []
     else [])
  if parts.isEmpty then "Great content with amazing savings"
  else joinSep " • " parts

/-- The URL switch of `convertAPIBundlesToInternal` (feed.go:677-699). -/
def bundleURL (apiBundle : FanaticalAPIBundle) : String :=
  if apiBundle.type == "pick-and-mix" then "/en/pick-and-mix/" ++ apiBundle.slug
  else if apiBundle.type == "book-bundle" then "/en/pick-and-mix/" ++ apiBundle.slug
  else if apiBundle.type == "elearning-bundle" then "/en/pick-and-mix/" ++ apiBundle.slug
  else if apiBundle.type == "software-bundle" then "/en/pick-and-mix/" ++ apiBundle.slug
  else if apiBundle.type == "game" then "/en/game/" ++ apiBundle.slug
  else if apiBundle.type == "bundle" then "/en/bundle/" ++ apiBundle.slug
  else if strContains apiBundle.slug "build-your-own" || strContains apiBundle.slug "bundle" then
    "/en/pick-and-mix/" ++ apiBundle.slug
  else "/en/bundle/" ++ apiBundle.slug

/-- The canonical bundle one API candidate converts to: the loop body
of `convertAPIBundlesToInternal` (feed.go:659-717). -/
def convertAPIBundle (now : Int) (apiBundle : FanaticalAPIBundle) : FanaticalBundle :=
  let price := getPrice apiBundle.price "USD"
  let originalPrice := getPrice apiBundle.fullPrice "USD"
  let discount := computeDiscount apiBundle.discountPercent price originalPrice apiBundle.pnmSaving
  { id := apiBundle.productId
    title := apiBundle.name
    description := createEnhancedBundleDescription apiBundle
    url := bundleURL apiBundle
    slug := apiBundle.slug
    category := determineBundleCategory apiBundle
    startUnix := apiBundle.validFrom
    endUnix := apiBundle.validUntil
    isActive := apiBundle.onSale && !(isExpired now apiBundle.validUntil)
    price :=
      { currency := "USD"
        amount := price
        original := originalPrice
        discount := discount } }

/-- Go `convertAPIBundlesToInternal` (feed.go:636-734), with `time.Now()`
passed in as `now`. -/
def convertAPIBundlesToInternal (now : Int) : List FanaticalAPIBundle → List FanaticalBundle
  | [] => []
  | apiBundle :: rest =>
    if apiBundle.name == "" then convertAPIBundlesToInternal now rest
    else if isExpired now apiBundle.validUntil then convertAPIBundlesToInternal now rest
    else if apiBundle.giveaway && decide (apiBundle.gameTotal < 5) then
      convertAPIBundlesToInternal now rest
    else
      let bundle := convertAPIBundle now apiBundle
      if bundle.isActive then bundle :: convertAPIBundlesToInternal now rest
      else convertAPIBundlesToInternal now rest

/-- The cheapest-USD-tier loop of `convertPickAndMixToBundle`
(feed.go:559-565): `current` starts at the 999999 sentinel. -/
def minTierPriceAux (current : ℚ) : List PickAndMixTier → ℚ
  | [] => current
  | tier :: rest =>
    match mapLookup tier.price "USD" with
    | some usdPrice =>
      if usdPrice < current then minTierPriceAux usdPrice rest
      else minTierPriceAux current rest
    | none => minTierPriceAux current rest

/-- Go `convertPickAndMixToBundle` (feed.go:555-585). -/
def convertPickAndMixToBundle (parse : String → Option Int) (pnm : PickAndMixBundle) :
    FanaticalAPIBundle :=
  let validFrom := (parse pnm.validFrom).getD goZeroUnix
  let validUntil := (parse pnm.validUntil).getD goZeroUnix
  let minPrice := minTierPriceAux 999999 pnm.tiers
  let fullPrice := minPrice * 2
  { productId := pnm.id
    name := pnm.name
    slug := pnm.slug
    type := "pick-and-mix"
    displayType := pnm.type
    cover := pnm.coverImage
    onSale := true
    validFrom := validFrom
    validUntil := validUntil
    price := [("USD", minPrice)]
    fullPrice := [("USD", fullPrice)]
    discountPercent := 50
    gameTotal := pnm.products.length }

/-- Go `createFreeProductDescription` (feed.go:897-914). -/
def createFreeProductDescription (freeProduct : FreeProduct) (product : PromotionProduct) :
    String :=
  let parts : List String := ["🎁 FREE"]
  let parts := parts ++ (if product.mystery then ["Mystery Game"] else [])
  let parts := parts ++
    (if freeProduct.partnerBrand != "" then ["Partner: " ++ freeProduct.partnerBrand] else [])
  let minSpendUSD := getPrice freeProduct.minSpend "USD"
  let parts := parts ++
    (if minSpendUSD > 0 then ["Min spend: $" ++ goFmtDot0 minSpendUSD] else [])
  joinSep " • " parts

/-- Go `createVoucherDescription` (feed.go:916-931). -/
def createVoucherDescription (voucher : Voucher) : String :=
  let parts : List String := ["💰 " ++ intToStr voucher.percent ++ "% OFF"]
  let parts := parts ++ ["Code: " ++ voucher.code]
  let parts := parts ++ (if voucher.fullPriceOnly then ["Full price only"] else [])
  let minSpendUSD := getPrice voucher.minSpend "USD"
  let parts := parts ++
    (if minSpendUSD > 0 then ["Min spend: $" ++ goFmtDot0 minSpendUSD] else [])
  joinSep " • " parts

/-- Go `determineProductCategory` (feed.go:933-946). -/
def determineProductCategory (product : PromotionProduct) : String :=
  let productType := lowerStr product.type
  let name := lowerStr product.name
  if productType == "book" || strContains name "book" then "books"
  else if productType == "software" || strContains name "software" then "software"
  else "games"

/-- The bundle a visible free-promotion product converts to
(feed.go:833-849). -/
def convertFreeProduct (freeProduct : FreeProduct) (product : PromotionProduct)
    (validFrom validUntil : Int) : FanaticalBundle :=
  { id := product.id
    title := product.name
    description := createFreeProductDescription freeProduct product
    url := "/en/game/" ++ product.slug
    slug := product.slug
    category := determineProductCategory product
    startUnix := validFrom
    endUnix := validUntil
    isActive := true
    price :=
      { currency := "USD"
        amount := 0
        original := getPrice product.price "USD"
        discount := 100 } }

/-- The bundle a public game voucher converts to (feed.go:872-888). -/
def convertVoucher (voucher : Voucher) (validFrom validUntil : Int) : FanaticalBundle :=
  { id := voucher.id
    title := "Voucher: " ++ voucher.title
    description := createVoucherDescription voucher
    url := "/en/bundles"
    slug := "voucher-" ++ voucher.code
    category := "games"
    startUnix := validFrom
    endUnix := validUntil
    isActive := true
    price :=
      { currency := "USD"
        amount := 0
        original := 0
        discount := voucher.percent } }

/-- Go `convertPromotionsToBundles` (feed.go:809-895); `parse` models
`time.Parse(time.RFC3339, ·)` and `now` models `time.Now()`. -/
def convertPromotionsToBundles (parse : String → Option Int) (now : Int)
    (promotions : PromotionsResponse) (category : String) : List FanaticalBundle :=
  let freeBundles :=
    promotions.freeProducts.flatMap fun freeProduct =>
      if !freeProduct.isPublic then []
      else
        match parse freeProduct.validUntil with
        | none => []
        | some validUntil =>
          if validUntil < now then []
          else
            let validFrom := (parse freeProduct.validFrom).getD now
            freeProduct.products.filterMap fun product =>
              if !product.isVisible then none
              else some (convertFreeProduct freeProduct product validFrom validUntil)
  let voucherBundles :=
    if category == "games" then
      promotions.vouchers.filterMap fun voucher =>
        if !voucher.isPublic || !voucher.game then none
        else
          match parse voucher.validUntil with
          | none => none
          | some validUntil =>
            if validUntil < now then none
            else
              let validFrom := (parse voucher.validFrom).getD now
              some (convertVoucher voucher validFrom validUntil)
    else []
  freeBundles ++ voucherBundles

/-- The dedup key of `removeDuplicateBundles` (feed.go:274):
`fmt.Sprintf("%s-%d", bundle.Slug, bundle.StartDate.Unix())`. -/
def bundleKey (bundle : FanaticalBundle) : String :=
  bundle.slug ++ "-" ++ intToStr bundle.startUnix

/-- The loop of `removeDuplicateBundles` (feed.go:268-295); the Go
`seen` map of keys is the `seen` list. -/
def removeDuplicateBundlesAux (seen : List String) : List FanaticalBundle → List FanaticalBundle
  | [] => []
  | bundle :: rest =>
    let key := bundleKey bundle
    if seen.contains key then removeDuplicateBundlesAux seen rest
    else bundle :: removeDuplicateBundlesAux (key :: seen) rest

/-- Go `removeDuplicateBundles` (feed.go:268-295). -/
def removeDuplicateBundles (bundles : List FanaticalBundle) : List FanaticalBundle :=
  removeDuplicateBundlesAux [] bundles

/-- The local `wouldBeBooks` of the fallback case of
`shouldIncludeBundle` (feed.go:1129-1151). -/
def wouldBeBooks (bundleCategory title : String) : Bool :=
  (bundleCategory == "books") ||
  ((strContains title "certification" || strContains title "learning" ||
    strContains title "elearning" || strContains title "training" ||
    strContains title "course" ||
    (strContains title "development" && !(strContains title "game")) ||
    strContains title "programming" || strContains title "coding" ||
    strContains title "security" || strContains title "cloud" ||
    strContains title "machine learning" ||
    (strContains title "python" && !(strContains title "game")) ||
    strContains title "c#" || strContains title "graphics and design" ||
    strContains title "business computing" || strContains title "network" ||
    strContains title "robotics" || strContains title "digital life") &&
   !(strContains title "rpg and fantasy" || strContains title "game" ||
     strContains title "gaming"))

/-- The local `wouldBeGames` of the fallback case of
`shouldIncludeBundle` (feed.go:1154-1172). -/
def wouldBeGames (bundleCategory title description : String) : Bool :=
  (bundleCategory == "games" || strContains title "game" || strContains title "rpg" ||
   strContains title "fantasy" || strContains title "strategy" ||
   strContains title "capcom" || strContains title "brutal" ||
   strContains title "chillout" || strContains title "favorites" ||
   strContains title "point and click" || strContains title "steam" ||
   strContains description "game" || strContains title "voucher") &&
  !(strContains title "certification" || strContains title "learning" ||
    strContains title "training" || strContains title "course" ||
    strContains title "software")

/-- The local `wouldBeSoftware` of the fallback case of
`shouldIncludeBundle` (feed.go:1175-1181). -/
def wouldBeSoftware (bundleCategory title description : String) : Bool :=
  bundleCategory == "software" || strContains title "software" ||
  strContains title "app" || strContains description "software" ||
  strContains description "app" || strContains title "excel" ||
  strContains title "zenva"

/-- Go `shouldIncludeBundle` (feed.go:1030-1207); the Go `switch` is the
if-chain on `targetCategory`. -/
def shouldIncludeBundle (bundle : FanaticalBundle) (category : String) : Bool :=
  let bundleCategory := lowerStr bundle.category
  let targetCategory := lowerStr category
  if bundleCategory == targetCategory then true
  else
    let title := lowerStr bundle.title
    let description := lowerStr bundle.description
    if targetCategory == "books" then
      if strContains title "rpg and fantasy" || strContains title "game" ||
         strContains title "gaming" then false
      else
        strContains title "certification" || strContains title "learning" ||
        strContains title "elearning" || strContains title "training" ||
        strContains title "course" ||
        (strContains title "development" && !(strContains title "game")) ||
        strContains title "programming" || strContains title "coding" ||
        strContains title "security" || strContains title "cloud" ||
        strContains title "machine learning" ||
        (strContains title "python" && !(strContains title "game")) ||
        strContains title "c#" || strContains title "graphics and design" ||
        strContains title "business computing" || strContains title "network" ||
        strContains title "robotics" || strContains title "digital life"
    else if targetCategory == "games" then
      if strContains title "certification" || strContains title "learning" ||
         strContains title "training" || strContains title "course" ||
         strContains title "software" then false
      else
        bundleCategory == "games" || strContains title "game" ||
        strContains title "rpg" || strContains title "fantasy" ||
        strContains title "strategy" || strContains title "capcom" ||
        strContains title "brutal" || strContains title "chillout" ||
        strContains title "favorites" || strContains title "point and click" ||
        strContains title "steam" || strContains description "game" ||
        strContains title "voucher"
    else if targetCategory == "software" then
      strContains title "software" || strContains title "app" ||
      strContains description "software" || strContains description "app" ||
      strContains title "excel" || strContains title "zenva"
    else if targetCategory == "fallback" then
      !(wouldBeBooks bundleCategory title) &&
      !(wouldBeGames bundleCategory title description) &&
      !(wouldBeSoftware bundleCategory title description)
    else true

/-- Go `createTestBundle` (feed.go:1209-1228), with `time.Now()` as `now`
(30 days are 2592000 seconds). -/
def createTestBundle (now : Int) (category : String) : List FanaticalBundle :=
  [{ id := category ++ "-test"
     title := "Test " ++ goTitleCase category ++ " Bundle"
     description := "Test bundle for " ++ category ++ " category - no active bundles found"
     url := "/en/bundle/test"
     category := category
     startUnix := now
     endUnix := now + 2592000
     isActive := true
     price :=
       { currency := "USD"
         amount := 9.99
         original := 49.99
         discount := 80 } }]

/-- The bundle-list computation of `updateCategory` (feed.go:297-412):
collect candidates from the three adapters (`none` models an adapter
error contributing zero candidates), dedup, filter by category, and
fall back to the test bundle for an empty non-fallback category (the
fallback category gets an empty feed instead). -/
def updateCategoryBundles (parse : String → Option Int) (now : Int)
    (newApiResponse : Option FanaticalAllResponse)
    (algoliaBundles : Option (List FanaticalAPIBundle))
    (promotionsResponse : Option PromotionsResponse) (category : String) :
    List FanaticalBundle :=
  let fromNewApi :=
    match newApiResponse with
    | none => []
    | some resp =>
      let apiBundles :=
        (match resp.starDeal with | some sd => [sd] | none => []) ++
        resp.pickAndMix.map (convertPickAndMixToBundle parse)
      convertAPIBundlesToInternal now apiBundles
  let fromAlgolia :=
    match algoliaBundles with
    | none => []
    | some apiBundles => convertAPIBundlesToInternal now apiBundles
  let fromPromotions :=
    match promotionsResponse with
    | none => []
    | some promotions => convertPromotionsToBundles parse now promotions category
  let allBundles := fromNewApi ++ fromAlgolia ++ fromPromotions
  let allBundles := removeDuplicateBundles allBundles
  let filteredBundles := allBundles.filter (fun bundle => shouldIncludeBundle bundle category)
  if filteredBundles.isEmpty && !(category == "fallback") then createTestBundle now category
  else filteredBundles

/-! ### Spec-side definition for deduplication -/

/-- First-occurrence deduplication keyed by the `(slug, validFrom unix
seconds)` pair, as the specification words it: keep each first-seen
bundle per pair, discard later duplicates, preserve survivor order. -/
def dedupFirstByPair : List FanaticalBundle → List FanaticalBundle
  | [] => []
  | b :: rest =>
    b :: dedupFirstByPair
      (rest.filter (fun c => !(c.slug == b.slug && c.startUnix == b.startUnix)))
termination_by l => l.length
decreasing_by
  simp only [List.length_cons]
  exact Nat.lt_succ_of_le (List.length_filter_le _ _)

/-! ### Concrete inputs used by the claim theorems -/

/-- A pipeline-realisable bundle included by two category filters:
`convertAPIBundlesToInternal` applied to the concrete candidate below
and run through deduplication yields `c1bundle`. -/
def c1api : FanaticalAPIBundle :=
  { name := "Fantasy App"
    slug := "fantasy-app"
    onSale := true
    validFrom := 0
    validUntil := 2000000000
    price := [("USD", 5)]
    fullPrice := [("USD", 10)] }

/-- The canonical bundle the pipeline produces from `c1api`. -/
def c1bundle : FanaticalBundle :=
  { id := ""
    title := "Fantasy App"
    slug := "fantasy-app"
    description := "Great content with amazing savings"
    url := "/en/bundle/fantasy-app"
    price := { currency := "USD", amount := 5, original := 10, discount := 50 }
    startUnix := 0
    endUnix := 2000000000
    category := "games"
    isActive := true }

/-- The candidate of the spec scenario: empty display-type hint, title
with both games- and software-indicating terms. -/
def c2api : FanaticalAPIBundle :=
  { name := "RPG and Fantasy Software Bundle"
    slug := "rpg-and-fantasy-software-bundle"
    onSale := true
    validFrom := 0
    validUntil := 2000000000
    price := [("USD", 10)]
    fullPrice := [("USD", 20)] }

/-- The canonical bundle the pipeline produces from `c2api`. -/
def c2bundle : FanaticalBundle :=
  { id := ""
    title := "RPG and Fantasy Software Bundle"
    slug := "rpg-and-fantasy-software-bundle"
    description := "Great content with amazing savings"
    url := "/en/pick-and-mix/rpg-and-fantasy-software-bundle"
    price := { currency := "USD", amount := 10, original := 20, discount := 50 }
    startUnix := 0
    endUnix := 2000000000
    category := "software"
    isActive := true }

/-- The second candidate of the spec scenario ("Pro Studio Software
Bundle", no books-conflicting term). -/
def c2bapi : FanaticalAPIBundle :=
  { name := "Pro Studio Software Bundle"
    slug := "pro-studio-software-bundle"
    onSale := true
    validFrom := 0
    validUntil := 2000000000
    price := [("USD", 10)]
    fullPrice := [("USD", 20)] }

/-- The canonical bundle the pipeline produces from `c2bapi`. -/
def c2bbundle : FanaticalBundle :=
  { id := ""
    title := "Pro Studio Software Bundle"
    slug := "pro-studio-software-bundle"
    description := "Great content with amazing savings"
    url := "/en/pick-and-mix/pro-studio-software-bundle"
    price := { currency := "USD", amount := 10, original := 20, discount := 50 }
    startUnix := 0
    endUnix := 2000000000
    category := "software"
    isActive := true }

/-- A giveaway candidate with 4 items, flagged as a star deal. -/
def c9giveaway : FanaticalAPIBundle :=
  { name := "Small Giveaway"
    slug := "small-giveaway"
    giveaway := true
    starDeal := true
    onSale := true
    gameTotal := 4
    validUntil := 2000000000 }

/-- The same promotion flagged as a star deal instead of a giveaway. -/
def c9primary : FanaticalAPIBundle :=
  { name := "Small Giveaway"
    slug := "small-giveaway"
    giveaway := false
    starDeal := true
    onSale := true
    gameTotal := 4
    validUntil := 2000000000 }

/-- A pick-and-mix bundle with a single EUR-only tier. -/
def c10pnm : PickAndMixBundle :=
  { id := "pnm-1"
    name := "Build Your Own Bundle"
    slug := "build-your-own"
    type := "pick-and-mix"
    tiers := [{ quantity := 1, price := [("EUR", 5)] }] }

/-- The candidate whose price table is `{"EUR": 9.99}`. -/
def c6api : FanaticalAPIBundle :=
  { name := "Euro Bundle"
    slug := "euro-bundle"
    onSale := true
    validFrom := 0
    validUntil := 2000000000
    price := [("EUR", 999/100)] }

/-- The canonical bundle the pipeline produces from `c6api`. -/
def c6bundle : FanaticalBundle :=
  { id := ""
    title := "Euro Bundle"
    slug := "euro-bundle"
    description := "Great content with amazing savings"
    url := "/en/pick-and-mix/euro-bundle"
    price := { currency := "USD", amount := 999/100, original := 0, discount := 0 }
    startUnix := 0
    endUnix := 2000000000
    category := "games"
    isActive := true }

/-- First element of the key-collision pair: slug `"a-"`, start 5. -/
def c4a : FanaticalBundle :=
  { slug := "a-", startUnix := 5, title := "First" }

/-- Second element of the key-collision pair: slug `"a"`, start −5;
its formatted key `"a--5"` collides with `c4a`'s. -/
def c4b : FanaticalBundle :=
  { slug := "a", startUnix := -5, title := "Second" }

/-- First-seen mystery-box record. -/
def c4m1 : FanaticalBundle :=
  { slug := "mystery-box", startUnix := 1700000000, title := "Mystery Box" }

/-- Later mystery-box record with the same slug and start but another
title. -/
def c4m2 : FanaticalBundle :=
  { slug := "mystery-box", startUnix := 1700000000, title := "Mystery Box Deluxe" }

/-- The placeholder bundle of a run at `now = 1000` for `games`. -/
def c8bundle : FanaticalBundle :=
  { id := "games-test"
    title := "Test Games Bundle"
    description := "Test bundle for games category - no active bundles found"
    url := "/en/bundle/test"
    category := "games"
    startUnix := 1000
    endUnix := 2593000
    isActive := true
    price := { currency := "USD", amount := 9.99, original := 49.99, discount := 80 } }


/-! ### Lowercase literals used by the category dispatch -/

theorem lower_books : lowerStr "books" = "books" := rfl

theorem lower_games : lowerStr "games" = "games" := rfl

theorem lower_software : lowerStr "software" = "software" := rfl

theorem lower_fallback : lowerStr "fallback" = "fallback" := rfl

/-! ### Inclusion lemmas: each fallback-case predicate implies
inclusion by the corresponding category filter. -/

theorem shouldInclude_books_of (b : FanaticalBundle)
    (h : wouldBeBooks (lowerStr b.category) (lowerStr b.title) = true) :
    shouldIncludeBundle b "books" = true := by
  have h' := h
  unfold wouldBeBooks at h'
  unfold shouldIncludeBundle
  rw [lower_books]
  cases hd : (lowerStr b.category == "books") with
  | true => simp [hd]
  | false =>
    simp only [hd, Bool.false_or] at h'
    rw [Bool.and_eq_true] at h'
    obtain ⟨hlex, hgam⟩ := h'
    rw [Bool.not_eq_true'] at hgam
    simp [hd, hgam, hlex]

theorem shouldInclude_games_of (b : FanaticalBundle)
    (h : wouldBeGames (lowerStr b.category) (lowerStr b.title) (lowerStr b.description) = true) :
    shouldIncludeBundle b "games" = true := by
  have h' := h
  unfold wouldBeGames at h'
  rw [Bool.and_eq_true] at h'
  obtain ⟨hlex, hexcl⟩ := h'
  rw [Bool.not_eq_true'] at hexcl
  unfold shouldIncludeBundle
  rw [lower_games]
  cases hd : (lowerStr b.category == "games") with
  | true => simp [hd]
  | false =>
    simp only [hd, Bool.false_or] at hlex
    simp [hd, hexcl, hlex]

theorem shouldInclude_software_of (b : FanaticalBundle)
    (h : wouldBeSoftware (lowerStr b.category) (lowerStr b.title) (lowerStr b.description) = true) :
    shouldIncludeBundle b "software" = true := by
  have h' := h
  unfold wouldBeSoftware at h'
  unfold shouldIncludeBundle
  rw [lower_software]
  cases hd : (lowerStr b.category == "software") with
  | true => simp [hd]
  | false =>
    simp only [hd, Bool.false_or] at h'
    simp [hd, h']

/-! ### Claim C1 -/

/-- C1, counterexample: the canonical bundle produced (and kept by
deduplication) from the candidate titled "Fantasy App" is included by
the category filter for both `games` (direct category match) and
`software` (its title contains "app"), so `shouldIncludeBundle` does
not hold for at most one of the three category targets. -/
theorem c1_counterexample :
    removeDuplicateBundles (convertAPIBundlesToInternal 1000 [c1api]) = [c1bundle] ∧
    shouldIncludeBundle c1bundle "games" = true ∧
    shouldIncludeBundle c1bundle "software" = true := by
  decide

/-- C1, amended: category inclusion is not exclusive over
`games`/`books`/`software` (see the counterexample); what the filters
do guarantee is coverage: every canonical bundle is included by at
least one of the four targets `games`, `books`, `software`,
`fallback`. -/
theorem c1_theorem (b : FanaticalBundle) :
    shouldIncludeBundle b "games" = true ∨ shouldIncludeBundle b "books" = true ∨
    shouldIncludeBundle b "software" = true ∨ shouldIncludeBundle b "fallback" = true := by
  by_cases hB : wouldBeBooks (lowerStr b.category) (lowerStr b.title) = true
  · exact Or.inr (Or.inl (shouldInclude_books_of b hB))
  · by_cases hG :
      wouldBeGames (lowerStr b.category) (lowerStr b.title) (lowerStr b.description) = true
    · exact Or.inl (shouldInclude_games_of b hG)
    · by_cases hS :
        wouldBeSoftware (lowerStr b.category) (lowerStr b.title) (lowerStr b.description) = true
      · exact Or.inr (Or.inr (Or.inl (shouldInclude_software_of b hS)))
      · refine Or.inr (Or.inr (Or.inr ?_))
        rw [Bool.not_eq_true] at hB hG hS
        unfold shouldIncludeBundle
        rw [lower_fallback]
        cases hd : (lowerStr b.category == "fallback") with
        | true => simp [hd]
        | false => simp [hd, hB, hG, hS]

/-! ### Claim C2 -/

/-- C2, counterexample: for the candidate titled "RPG and Fantasy
Software Bundle" with empty display type, classification assigns
category `software` (not `games`), and the games category filter
rejects the resulting bundle (its title contains "software", which is
on the games exclusion list), so the bundle is not assigned to the
games category output. -/
theorem c2_counterexample :
    determineBundleCategory c2api = "software" ∧
    convertAPIBundlesToInternal 1000 [c2api] = [c2bundle] ∧
    shouldIncludeBundle c2bundle "games" = false := by
  decide

/-- C2, amended: the "RPG and Fantasy Software Bundle" candidate is
assigned to the software category output and to no other of the three
(the software term wins: `determineBundleCategory` returns software,
the games filter excludes titles containing "software" and the books
filter excludes titles containing "rpg and fantasy"); the "Pro Studio
Software Bundle" candidate is likewise assigned to software only. -/
theorem c2_theorem :
    (convertAPIBundlesToInternal 1000 [c2api] = [c2bundle] ∧
     shouldIncludeBundle c2bundle "software" = true ∧
     shouldIncludeBundle c2bundle "games" = false ∧
     shouldIncludeBundle c2bundle "books" = false) ∧
    (convertAPIBundlesToInternal 1000 [c2bapi] = [c2bbundle] ∧
     shouldIncludeBundle c2bbundle "software" = true ∧
     shouldIncludeBundle c2bbundle "games" = false ∧
     shouldIncludeBundle c2bbundle "books" = false) := by
  decide

/-! ### Claim C3 -/

/-- C3, counterexample: with list price 3, sale price 1, no explicit
discount and no PNM saving, the code computes `int((3-1)/3*100) = 66`
(Go truncation), while the claimed `round(100*(3-1)/3)` is `67`. -/
theorem c3_counterexample :
    computeDiscount 0 1 3 0 ≠ round ((100 : ℚ) * (3 - 1) / 3) := by
  decide

/-- C3, amended: with list > sale > 0 and a zero source discount the
resulting discount is `100*(list-sale)/list` truncated toward zero (Go
`int` conversion), not rounded to nearest; a non-zero source discount
is kept; in either case a larger PNM saving becomes the discount
(`max`). -/
theorem c3_theorem (explicitDiscount : Int) (price originalPrice : ℚ) (pnmSaving : Int) :
    (explicitDiscount = 0 → price < originalPrice → 0 < price →
      computeDiscount explicitDiscount price originalPrice pnmSaving =
        max pnmSaving (ratTrunc ((originalPrice - price) / originalPrice * 100))) ∧
    (explicitDiscount ≠ 0 →
      computeDiscount explicitDiscount price originalPrice pnmSaving =
        max pnmSaving explicitDiscount) := by
  constructor
  · intro h0 hlt hpos
    subst h0
    have h2 : decide (originalPrice > price) = true := decide_eq_true hlt
    have h3 : decide (originalPrice > 0) = true := decide_eq_true (lt_trans hpos hlt)
    unfold computeDiscount
    simp only [h2, h3, Bool.and_true, beq_self_eq_true, Bool.true_and, if_true]
    rcases le_or_lt pnmSaving (ratTrunc ((originalPrice - price) / originalPrice * 100)) with h | h
    · rw [if_neg (not_lt.mpr h), max_eq_right h]
    · rw [if_pos h, max_eq_left h.le]
  · intro hne
    have h1 : (explicitDiscount == 0) = false := by simp [hne]
    have hc : (explicitDiscount == 0 && decide (originalPrice > price) &&
        decide (originalPrice > 0)) = false := by
      simp [h1]
    unfold computeDiscount
    simp only [hc, Bool.false_eq_true, if_false]
    rcases le_or_lt pnmSaving explicitDiscount with h | h
    · rw [if_neg (by omega), max_eq_right h]
    · rw [if_pos (by omega), max_eq_left h.le]

/-- C3, witness: evaluation of the amended theorem at list 4, sale 1
(truncation case) and at an explicit discount of 25 with PNM 7. -/
theorem c3_theorem_witness :
    computeDiscount 0 1 4 0 = max 0 (ratTrunc (((4 : ℚ) - 1) / 4 * 100)) ∧
    computeDiscount 25 1 4 7 = max 7 25 :=
  ⟨(c3_theorem 0 1 4 0).1 rfl (by decide) (by decide),
   (c3_theorem 25 1 4 7).2 (by decide)⟩

/-! ### Claim C5 -/

/-- C5: when every adapter errors (`none`: zero candidates), each of
the three category outputs is exactly the one clearly-labelled test
placeholder and nothing else. -/
theorem c5_theorem (parse : String → Option Int) (now : Int) :
    (updateCategoryBundles parse now none none none "games" =
      [{ id := "games-test"
         title := "Test Games Bundle"
         description := "Test bundle for games category - no active bundles found"
         url := "/en/bundle/test"
         category := "games"
         startUnix := now
         endUnix := now + 2592000
         isActive := true
         price := { currency := "USD", amount := 9.99, original := 49.99, discount := 80 } }]) ∧
    (updateCategoryBundles parse now none none none "books" =
      [{ id := "books-test"
         title := "Test Books Bundle"
         description := "Test bundle for books category - no active bundles found"
         url := "/en/bundle/test"
         category := "books"
         startUnix := now
         endUnix := now + 2592000
         isActive := true
         price := { currency := "USD", amount := 9.99, original := 49.99, discount := 80 } }]) ∧
    (updateCategoryBundles parse now none none none "software" =
      [{ id := "software-test"
         title := "Test Software Bundle"
         description := "Test bundle for software category - no active bundles found"
         url := "/en/bundle/test"
         category := "software"
         startUnix := now
         endUnix := now + 2592000
         isActive := true
         price := { currency := "USD", amount := 9.99, original := 49.99, discount := 80 } }]) :=
  ⟨rfl, rfl, rfl⟩

/-! ### Claim C9 -/

/-- C9: a giveaway candidate with fewer than 5 items is dropped by the
canonicalizer; a candidate the source does not flag as a giveaway
(e.g. one flagged as a star-deal promotion) passes the giveaway gate
and, when otherwise valid, is kept. -/
theorem c9_theorem (now : Int) (apiBundle : FanaticalAPIBundle) :
    (apiBundle.giveaway = true → apiBundle.gameTotal < 5 →
      convertAPIBundlesToInternal now [apiBundle] = []) ∧
    (apiBundle.giveaway = false → apiBundle.name ≠ "" →
      isExpired now apiBundle.validUntil = false → apiBundle.onSale = true →
      apiBundle.gameTotal < 5 →
      (convertAPIBundlesToInternal now [apiBundle]).length = 1) := by
  constructor
  · intro hg hlt
    have hd : decide (apiBundle.gameTotal < 5) = true := decide_eq_true hlt
    unfold convertAPIBundlesToInternal
    by_cases h1 : (apiBundle.name == "") = true
    · simp [h1, convertAPIBundlesToInternal]
    · by_cases h2 : isExpired now apiBundle.validUntil = true
      · simp [h1, h2, convertAPIBundlesToInternal]
      · simp [h1, h2, hg, hd, convertAPIBundlesToInternal]
  · intro hg hname hexp hsale _
    have h1 : (apiBundle.name == "") = false := by
      simp [hname]
    unfold convertAPIBundlesToInternal
    simp [h1, hexp, hg, hsale, convertAPIBundlesToInternal, convertAPIBundle]

/-- C9, witness: the giveaway with 4 items is dropped; the non-giveaway
star deal with 4 items is kept. -/
theorem c9_theorem_witness :
    convertAPIBundlesToInternal 1000 [c9giveaway] = [] ∧
    (convertAPIBundlesToInternal 1000 [c9primary]).length = 1 :=
  ⟨(c9_theorem 1000 c9giveaway).1 rfl (by decide),
   (c9_theorem 1000 c9primary).2 rfl (by decide) rfl rfl (by decide)⟩

/-! ### Claim C10 -/

/-- If no tier has a USD price, the sentinel survives the cheapest-tier
loop. -/
theorem minTierPriceAux_of_noUSD (current : ℚ) :
    ∀ tiers : List PickAndMixTier,
      (∀ tier ∈ tiers, mapLookup tier.price "USD" = none) →
      minTierPriceAux current tiers = current := by
  intro tiers
  induction tiers generalizing current with
  | nil => intro _; rfl
  | cons tier rest ih =>
    intro h
    have h0 := h tier (List.mem_cons_self tier rest)
    have hrest : ∀ t ∈ rest, mapLookup t.price "USD" = none :=
      fun t ht => h t (List.mem_cons_of_mem tier ht)
    simp only [minTierPriceAux, h0]
    exact ih current hrest

/-- C10: a pick-and-mix source bundle none of whose tiers carries a USD
price (in particular one with no tiers) converts to a candidate with
the unreplaced sentinel 999999 as sale price, 1999998 as the doubled
synthetic list price and the fixed 50 percent discount; tiers without a
USD entry are skipped by the cheapest-tier selection. -/
theorem c10_theorem (parse : String → Option Int) (pnm : PickAndMixBundle) :
    ((∀ tier ∈ pnm.tiers, mapLookup tier.price "USD" = none) →
      (convertPickAndMixToBundle parse pnm).price = [("USD", 999999)] ∧
      (convertPickAndMixToBundle parse pnm).fullPrice = [("USD", 1999998)] ∧
      (convertPickAndMixToBundle parse pnm).discountPercent = 50) ∧
    (∀ (current : ℚ) (tier : PickAndMixTier) (rest : List PickAndMixTier),
      mapLookup tier.price "USD" = none →
      minTierPriceAux current (tier :: rest) = minTierPriceAux current rest) := by
  constructor
  · intro h
    have hmin : minTierPriceAux 999999 pnm.tiers = 999999 :=
      minTierPriceAux_of_noUSD 999999 pnm.tiers h
    refine ⟨?_, ?_, ?_⟩
    · simp [convertPickAndMixToBundle, hmin]
    · simp only [convertPickAndMixToBundle, hmin]
      norm_num
    · rfl
  · intro current tier rest h
    simp only [minTierPriceAux, h]

/-- C10, witness: evaluation of the theorem on the EUR-only pick-and-mix
bundle. -/
theorem c10_theorem_witness :
    ((convertPickAndMixToBundle (fun _ => none) c10pnm).price = [("USD", 999999)] ∧
     (convertPickAndMixToBundle (fun _ => none) c10pnm).fullPrice = [("USD", 1999998)] ∧
     (convertPickAndMixToBundle (fun _ => none) c10pnm).discountPercent = 50) ∧
    minTierPriceAux 7 [{ quantity := 1, price := [("EUR", 5)] }] = minTierPriceAux 7 [] :=
  ⟨(c10_theorem (fun _ => none) c10pnm).1 (by decide),
   (c10_theorem (fun _ => none) c10pnm).2 7 { quantity := 1, price := [("EUR", 5)] } []
     (by decide)⟩

/-! ### Claim C6 -/

/-- C6, counterexample: for the price table `{"EUR": 9.99}` with
preferred currency USD the resolved sale amount is indeed 9.99, but the
currency recorded on the canonical bundle is the hard-coded "USD", not
EUR as claimed. -/
theorem c6_counterexample :
    convertAPIBundlesToInternal 1000 [c6api] = [c6bundle] ∧
    c6bundle.price.amount = 999/100 ∧
    c6bundle.price.currency = "USD" ∧
    ¬ c6bundle.price.currency = "EUR" := by
  decide

/-- C6, amended: price resolution picks the preferred currency when its
amount is present and positive, otherwise falls back through
EUR, GBP, CAD, AUD taking the first positive amount, and yields 0 when
no currency is present; for `{"EUR": 9.99}` with preferred USD the
resolved amount is 9.99, while the canonical bundle always records
currency "USD". -/
theorem c6_theorem (m : List (String × ℚ)) (pc : String) (p : ℚ) :
    (mapLookup m pc = some p → 0 < p → getPrice m pc = p) ∧
    (mapLookup m pc = none → mapLookup m "EUR" = some p → 0 < p → getPrice m pc = p) ∧
    ((∀ c ∈ [pc, "EUR", "GBP", "CAD", "AUD"], mapLookup m c = none) → getPrice m pc = 0) ∧
    (convertAPIBundlesToInternal 1000 [c6api] = [c6bundle] ∧
     c6bundle.price.currency = "USD") := by
  refine ⟨?_, ?_, ?_, by decide⟩
  · intro h hp
    unfold getPrice
    rw [h]
    simp [hp]
  · intro h he hp
    unfold getPrice fallbackPrice
    rw [h, he]
    simp [hp]
  · intro h
    have hpc := h pc (by simp)
    have hE := h "EUR" (by simp)
    have hG := h "GBP" (by simp)
    have hC := h "CAD" (by simp)
    have hA := h "AUD" (by simp)
    simp [getPrice, fallbackPrice, hpc, hE, hG, hC, hA]

/-- C6, witness: evaluation of the theorem at a USD table, the EUR-only
table of the scenario, and the empty table. -/
theorem c6_theorem_witness :
    getPrice [("USD", 3)] "USD" = 3 ∧
    getPrice [("EUR", (999 : ℚ)/100)] "USD" = 999/100 ∧
    getPrice [] "USD" = 0 :=
  ⟨(c6_theorem [("USD", 3)] "USD" 3).1 (by decide) (by decide),
   (c6_theorem [("EUR", 999/100)] "USD" (999/100)).2.1 (by decide) (by decide) (by decide),
   (c6_theorem [] "USD" 0).2.2.1 (by decide)⟩

/-! ### Decimal-key injectivity (for claim C4) -/

theorem str_data_append (s t : String) : (s ++ t).data = s.data ++ t.data := by
  cases s
  cases t
  rfl

theorem dash_data : ("-" : String).data = ['-'] := rfl

theorem digitToChar_ne_dash (d : Nat) : digitToChar d ≠ '-' := by
  unfold digitToChar
  split <;> decide

theorem digitToChar_toNat (d : Nat) (h : d < 10) : (digitToChar d).toNat = 48 + d := by
  interval_cases d <;> rfl

theorem digitToChar_inj (a b : Nat) (ha : a < 10) (hb : b < 10)
    (h : digitToChar a = digitToChar b) : a = b := by
  have h' := congrArg Char.toNat h
  rw [digitToChar_toNat a ha, digitToChar_toNat b hb] at h'
  omega

theorem natDigitsRevFuel_lt (fuel : Nat) :
    ∀ n, n < fuel → ∀ d ∈ natDigitsRevFuel fuel n, d < 10 := by
  induction fuel with
  | zero => omega
  | succ fuel ih =>
    intro n _ d hd
    unfold natDigitsRevFuel at hd
    by_cases h10 : n < 10
    · simp only [if_pos h10, List.mem_singleton] at hd
      omega
    · simp only [if_neg h10, List.mem_cons] at hd
      rcases hd with hd | hd
      · omega
      · exact ih (n / 10) (by omega) d hd

theorem fromDigitsRev_natDigitsRevFuel (fuel : Nat) :
    ∀ n, n < fuel → fromDigitsRev (natDigitsRevFuel fuel n) = n := by
  induction fuel with
  | zero => omega
  | succ fuel ih =>
    intro n _
    unfold natDigitsRevFuel
    by_cases h10 : n < 10
    · simp [if_pos h10, fromDigitsRev]
    · rw [if_neg h10]
      simp only [fromDigitsRev]
      rw [ih (n / 10) (by omega)]
      omega

theorem natDigitsRev_lt (n : Nat) : ∀ d ∈ natDigitsRev n, d < 10 :=
  natDigitsRevFuel_lt (n + 1) n (Nat.lt_succ_self n)

theorem natDigitsRev_inj {m n : Nat} (h : natDigitsRev m = natDigitsRev n) : m = n := by
  have hm := fromDigitsRev_natDigitsRevFuel (m + 1) m (Nat.lt_succ_self m)
  have hn := fromDigitsRev_natDigitsRevFuel (n + 1) n (Nat.lt_succ_self n)
  unfold natDigitsRev at h
  rw [← hm, ← hn, h]

theorem map_digitToChar_inj :
    ∀ (xs ys : List Nat), (∀ x ∈ xs, x < 10) → (∀ y ∈ ys, y < 10) →
      xs.map digitToChar = ys.map digitToChar → xs = ys
  | [], [], _, _, _ => rfl
  | [], _ :: _, _, _, h => by simp at h
  | _ :: _, [], _, _, h => by simp at h
  | x :: xs, y :: ys, hx, hy, h => by
    simp only [List.map_cons, List.cons.injEq] at h
    have hxy := digitToChar_inj x y (hx x (by simp)) (hy y (by simp)) h.1
    have htail := map_digitToChar_inj xs ys
      (fun a ha => hx a (by simp [ha])) (fun a ha => hy a (by simp [ha])) h.2
    simp [hxy, htail]

theorem natToStr_inj {m n : Nat} (h : natToStr m = natToStr n) : m = n := by
  have h' : (natDigitsRev m).reverse.map digitToChar =
      (natDigitsRev n).reverse.map digitToChar := congrArg String.data h
  apply natDigitsRev_inj
  refine List.reverse_inj.mp ?_
  exact map_digitToChar_inj _ _
    (fun x hx => natDigitsRev_lt m x (List.mem_reverse.mp hx))
    (fun y hy => natDigitsRev_lt n y (List.mem_reverse.mp hy)) h'

theorem mem_natToStr_ne_dash (n : Nat) (c : Char) (hc : c ∈ (natToStr n).data) : c ≠ '-' := by
  have hc' : c ∈ (natDigitsRev n).reverse.map digitToChar := hc
  rcases List.mem_map.mp hc' with ⟨d, _, hd⟩
  rw [← hd]
  exact digitToChar_ne_dash d

theorem mem_intToStr_ne_dash (t : Int) (ht : 0 ≤ t) (c : Char)
    (hc : c ∈ (intToStr t).data) : c ≠ '-' := by
  rcases Int.eq_ofNat_of_zero_le ht with ⟨n, rfl⟩
  exact mem_natToStr_ne_dash n c hc

theorem intToStr_inj_nonneg {s t : Int} (hs : 0 ≤ s) (ht : 0 ≤ t)
    (h : intToStr s = intToStr t) : s = t := by
  rcases Int.eq_ofNat_of_zero_le hs with ⟨m, rfl⟩
  rcases Int.eq_ofNat_of_zero_le ht with ⟨n, rfl⟩
  exact congrArg Int.ofNat (natToStr_inj h)

theorem append_cons_inj :
    ∀ (u u' : List Char) (c : Char) (v v' : List Char),
      c ∉ u → c ∉ u' → u ++ c :: v = u' ++ c :: v' → u = u' ∧ v = v'
  | [], [], _, _, _, _, _, h => by
    simp only [List.nil_append, List.cons.injEq] at h
    simp [h.2]
  | [], a' :: u', c, v, v', _, hc', h => by
    simp only [List.nil_append, List.cons_append, List.cons.injEq] at h
    exact absurd (h.1 ▸ List.mem_cons_self a' u') hc'
  | a :: u, [], c, v, v', hc, _, h => by
    simp only [List.cons_append, List.nil_append, List.cons.injEq] at h
    exact absurd (h.1 ▸ List.mem_cons_self a u) (h.1 ▸ hc)
  | a :: u, a' :: u', c, v, v', hc, hc', h => by
    simp only [List.cons_append, List.cons.injEq] at h
    have ih := append_cons_inj u u' c v v'
      (fun hm => hc (List.mem_cons_of_mem a hm))
      (fun hm => hc' (List.mem_cons_of_mem a' hm)) h.2
    exact ⟨by rw [h.1, ih.1], ih.2⟩

theorem bundleKey_data (b : FanaticalBundle) :
    (bundleKey b).data = b.slug.data ++ '-' :: (intToStr b.startUnix).data := by
  unfold bundleKey
  rw [str_data_append, str_data_append, dash_data, List.append_assoc, List.singleton_append]

theorem bundleKey_inj_nonneg {b c : FanaticalBundle}
    (hb : 0 ≤ b.startUnix) (hc : 0 ≤ c.startUnix)
    (h : bundleKey b = bundleKey c) :
    b.slug = c.slug ∧ b.startUnix = c.startUnix := by
  have hd := congrArg String.data h
  rw [bundleKey_data, bundleKey_data] at hd
  have hrev := congrArg List.reverse hd
  simp only [List.reverse_append, List.reverse_cons, List.append_assoc,
    List.singleton_append] at hrev
  have hsplit := append_cons_inj _ _ '-' _ _
    (fun hm => (mem_intToStr_ne_dash b.startUnix hb '-' (List.mem_reverse.mp hm)) rfl)
    (fun hm => (mem_intToStr_ne_dash c.startUnix hc '-' (List.mem_reverse.mp hm)) rfl)
    hrev
  constructor
  · exact String.ext (List.reverse_inj.mp hsplit.2)
  · exact intToStr_inj_nonneg hb hc (String.ext (List.reverse_inj.mp hsplit.1))

/-! ### Deduplication lemmas -/

theorem dedupFirstByPair_cons (b : FanaticalBundle) (rest : List FanaticalBundle) :
    dedupFirstByPair (b :: rest) =
      b :: dedupFirstByPair
        (rest.filter (fun c => !(c.slug == b.slug && c.startUnix == b.startUnix))) := by
  rw [dedupFirstByPair]

theorem removeDuplicateBundlesAux_sublist :
    ∀ (l : List FanaticalBundle) (seen : List String),
      List.Sublist (removeDuplicateBundlesAux seen l) l := by
  intro l
  induction l with
  | nil => intro seen; simp [removeDuplicateBundlesAux]
  | cons a rest ih =>
    intro seen
    unfold removeDuplicateBundlesAux
    by_cases hk : (seen.contains (bundleKey a)) = true
    · simp only [hk, if_true]
      exact (ih seen).cons a
    · simp only [hk, if_false, Bool.false_eq_true]
      exact (ih (bundleKey a :: seen)).cons₂ a

theorem dedupFirstByPair_nil : dedupFirstByPair [] = [] := by
  rw [dedupFirstByPair]

theorem removeDuplicateBundlesAux_eq :
    ∀ (l : List FanaticalBundle) (seen : List String),
      (∀ b ∈ l, 0 ≤ b.startUnix) →
      removeDuplicateBundlesAux seen l =
        dedupFirstByPair (l.filter (fun b => !(seen.contains (bundleKey b)))) := by
  intro l
  induction l with
  | nil =>
    intro seen _
    simp [removeDuplicateBundlesAux, dedupFirstByPair_nil]
  | cons a rest ih =>
    intro seen h
    have ha : 0 ≤ a.startUnix := h a (List.mem_cons_self a rest)
    have hrest : ∀ b ∈ rest, 0 ≤ b.startUnix := fun b hb => h b (List.mem_cons_of_mem a hb)
    cases hk : (seen.contains (bundleKey a)) with
    | true =>
      have hstep : removeDuplicateBundlesAux seen (a :: rest) =
          removeDuplicateBundlesAux seen rest := by
        simp only [removeDuplicateBundlesAux]
        rw [if_pos hk]
      have hfil : (a :: rest).filter (fun b => !(seen.contains (bundleKey b))) =
          rest.filter (fun b => !(seen.contains (bundleKey b))) := by
        simp only [List.filter_cons, hk, Bool.not_true, Bool.false_eq_true, if_false]
      rw [hstep, hfil, ih seen hrest]
    | false =>
      have hk' : ¬((seen.contains (bundleKey a)) = true) := by
        rw [hk]
        exact Bool.false_ne_true
      have hstep : removeDuplicateBundlesAux seen (a :: rest) =
          a :: removeDuplicateBundlesAux (bundleKey a :: seen) rest := by
        simp only [removeDuplicateBundlesAux]
        rw [if_neg hk']
      have hfil : (a :: rest).filter (fun b => !(seen.contains (bundleKey b))) =
          a :: rest.filter (fun b => !(seen.contains (bundleKey b))) := by
        simp only [List.filter_cons, hk, Bool.not_false, if_true]
      rw [hstep, hfil, dedupFirstByPair_cons, ih (bundleKey a :: seen) hrest,
        List.filter_filter]
      refine congrArg (List.cons a) (congrArg dedupFirstByPair (List.filter_congr ?_))
      intro x hx
      have hx0 : 0 ≤ x.startUnix := hrest x hx
      have hbeq : (bundleKey x == bundleKey a) =
          (x.slug == a.slug && x.startUnix == a.startUnix) := by
        rw [Bool.eq_iff_iff]
        simp only [beq_iff_eq, Bool.and_eq_true]
        constructor
        · intro hkey
          exact bundleKey_inj_nonneg hx0 ha hkey
        · intro hpair
          unfold bundleKey
          rw [hpair.1, hpair.2]
      rw [List.contains_cons, hbeq, Bool.not_or]

theorem removeDuplicateBundles_eq_of_nonneg (l : List FanaticalBundle)
    (h : ∀ b ∈ l, 0 ≤ b.startUnix) :
    removeDuplicateBundles l = dedupFirstByPair l := by
  unfold removeDuplicateBundles
  rw [removeDuplicateBundlesAux_eq l [] h]
  congr 1
  have : ∀ b ∈ l, (!(List.contains ([] : List String) (bundleKey b))) = true := by
    intro b _
    rfl
  rw [List.filter_congr this, List.filter_true]

/-! ### Claim C4 -/

/-- C4, counterexample: `c4a` and `c4b` have different
`(slug, validFrom)` pairs, so the claim demands both survive, but the
code's formatted string keys collide (`"a--5"`) and the second is
discarded. -/
theorem c4_counterexample :
    (c4a.slug, c4a.startUnix) ≠ (c4b.slug, c4b.startUnix) ∧
    removeDuplicateBundles [c4a, c4b] = [c4a] ∧
    removeDuplicateBundles [c4a, c4b] ≠ [c4a, c4b] := by
  decide

/-- C4, amended: the dedup key is the formatted string
`slug ++ "-" ++ decimal(validFrom)`; whenever all `validFrom`
timestamps are nonnegative (distinct pairs can only collide through a
negative timestamp, as in the counterexample) deduplication keeps
exactly the first-seen bundle per `(slug, validFrom)` pair in order
(`dedupFirstByPair`); the result is always a sublist of the input; and
of the two same-key mystery-box records only the first survives. -/
theorem c4_theorem :
    (∀ l : List FanaticalBundle, (∀ b ∈ l, 0 ≤ b.startUnix) →
      removeDuplicateBundles l = dedupFirstByPair l) ∧
    (∀ l : List FanaticalBundle, List.Sublist (removeDuplicateBundles l) l) ∧
    removeDuplicateBundles [c4m1, c4m2] = [c4m1] := by
  refine ⟨removeDuplicateBundles_eq_of_nonneg, ?_, by decide⟩
  intro l
  exact removeDuplicateBundlesAux_sublist l []

/-- C4, witness: the amended theorem applied to the mystery-box run. -/
theorem c4_theorem_witness :
    removeDuplicateBundles [c4m1, c4m2] = dedupFirstByPair [c4m1, c4m2] :=
  c4_theorem.1 [c4m1, c4m2] (by decide)

/-! ### Claim C8 -/

/-- Every bundle emitted by the API-candidate canonicalizer has
`validUntil` at or after `now` (expired candidates are skipped and
only active bundles are kept). -/
theorem convertAPIBundlesToInternal_endUnix (now : Int) :
    ∀ (l : List FanaticalAPIBundle) (b : FanaticalBundle),
      b ∈ convertAPIBundlesToInternal now l → now ≤ b.endUnix := by
  intro l
  induction l with
  | nil =>
    intro b hb
    simp [convertAPIBundlesToInternal] at hb
  | cons a rest ih =>
    intro b hb
    simp only [convertAPIBundlesToInternal] at hb
    split at hb
    · exact ih b hb
    · split at hb
      · exact ih b hb
      · split at hb
        · exact ih b hb
        · split at hb
          · rcases List.mem_cons.mp hb with rfl | hb'
            · rename_i hexp _ _
              show now ≤ a.validUntil
              have h2 : ¬(isExpired now a.validUntil = true) := hexp
              unfold isExpired at h2
              simp at h2
              omega
            · exact ih b hb'
          · exact ih b hb

/-- Every bundle derived from the promotions source has `validUntil`
at or after `now` (free products and vouchers whose window already
closed are skipped). -/
theorem convertPromotionsToBundles_endUnix (parse : String → Option Int) (now : Int)
    (promotions : PromotionsResponse) (category : String) :
    ∀ b ∈ convertPromotionsToBundles parse now promotions category, now ≤ b.endUnix := by
  intro b hb
  unfold convertPromotionsToBundles at hb
  rcases List.mem_append.mp hb with hb | hb
  · rcases List.mem_flatMap.mp hb with ⟨fp, _, hb⟩
    split at hb
    · simp at hb
    · split at hb
      · simp at hb
      · split at hb
        · simp at hb
        · rcases List.mem_filterMap.mp hb with ⟨product, _, hsome⟩
          split at hsome
          · simp at hsome
          · rw [Option.some.injEq] at hsome
            subst hsome
            rw [show ∀ fp p vf vu, (convertFreeProduct fp p vf vu).endUnix = vu from
              fun _ _ _ _ => rfl]
            omega
  · split at hb
    · rcases List.mem_filterMap.mp hb with ⟨voucher, _, hsome⟩
      split at hsome
      · simp at hsome
      · split at hsome
        · simp at hsome
        · split at hsome
          · simp at hsome
          · rw [Option.some.injEq] at hsome
            subst hsome
            rw [show ∀ v vf vu, (convertVoucher v vf vu).endUnix = vu from
              fun _ _ _ => rfl]
            omega
    · simp at hb

/-- C8: every bundle in any category output of a pipeline run has
`validUntil ≥ now`: expired candidates are dropped by the
canonicalizer and never appear in any category output, and the
placeholder's window also ends in the future. -/
theorem c8_theorem (parse : String → Option Int) (now : Int)
    (newApiResponse : Option FanaticalAllResponse)
    (algoliaBundles : Option (List FanaticalAPIBundle))
    (promotionsResponse : Option PromotionsResponse) (category : String)
    (b : FanaticalBundle)
    (hb : b ∈ updateCategoryBundles parse now newApiResponse algoliaBundles
      promotionsResponse category) :
    now ≤ b.endUnix := by
  have hNew : ∀ x ∈ (match newApiResponse with
      | none => ([] : List FanaticalBundle)
      | some resp =>
        convertAPIBundlesToInternal now
          ((match resp.starDeal with | some sd => [sd] | none => []) ++
            resp.pickAndMix.map (convertPickAndMixToBundle parse))), now ≤ x.endUnix := by
    cases newApiResponse with
    | none => intro x hx; simp at hx
    | some resp => intro x hx; exact convertAPIBundlesToInternal_endUnix now _ x hx
  have hAlg : ∀ x ∈ (match algoliaBundles with
      | none => ([] : List FanaticalBundle)
      | some apiBundles => convertAPIBundlesToInternal now apiBundles), now ≤ x.endUnix := by
    cases algoliaBundles with
    | none => intro x hx; simp at hx
    | some apiBundles => intro x hx; exact convertAPIBundlesToInternal_endUnix now _ x hx
  have hPromo : ∀ x ∈ (match promotionsResponse with
      | none => ([] : List FanaticalBundle)
      | some promotions => convertPromotionsToBundles parse now promotions category),
      now ≤ x.endUnix := by
    cases promotionsResponse with
    | none => intro x hx; simp at hx
    | some promotions =>
      intro x hx
      exact convertPromotionsToBundles_endUnix parse now promotions category x hx
  simp only [updateCategoryBundles] at hb
  split at hb
  · simp only [createTestBundle, List.mem_singleton] at hb
    subst hb
    show now ≤ now + 2592000
    omega
  · have hmem := (List.mem_filter.mp hb).1
    have hall := (removeDuplicateBundlesAux_sublist _ []).subset hmem
    rcases List.mem_append.mp hall with h1 | h23
    · rcases List.mem_append.mp h1 with hn | ha
      · exact hNew b hn
      · exact hAlg b ha
    · exact hPromo b h23

/-- C8, witness: the theorem applied to the concrete all-adapters-fail
run at `now = 1000` for the games category. -/
theorem c8_theorem_witness : (1000 : Int) ≤ c8bundle.endUnix :=
  c8_theorem (fun _ => none) 1000 none none none "games" c8bundle (by decide)

end Gofanatical
